import Mathlib

/-!
Verification of the registration + broadcast service in `src/main.py`
against its specification.  The Python module is shallowly embedded:
each route handler becomes a Lean function over an explicit application
state (the Redis keyspace used by the program plus the signed-session
flag of one client), external collaborators (pydantic's email validator,
bcrypt's hash check, the SMTP transport, the log file) are parameters of
an environment record, and fallible paths return explicit error values.
-/

namespace EmailBcast

/-- A stored user, i.e. the Redis hash at key `user:{id}` written by
`register_user` (main.py lines 179-183) with fields name, email, id. -/
structure UserRecord where
  name : String
  email : String
  id : Nat
deriving DecidableEq

/-- The singleton Redis hash at key `admin:account` (main.py lines 117-122):
fields username and password (the bcrypt hash string). -/
structure AdminAccount where
  username : String
  password : String
deriving DecidableEq

/-- The Redis keyspace as used by main.py: the `admin:account` hash, the
`users:count` counter, the `users:emails` hash (email field to user id),
and the `user:{id}` hashes. -/
structure Store where
  adminAccount : Option AdminAccount
  usersCount : Nat
  usersEmails : List (String × Nat)
  users : List UserRecord
deriving DecidableEq

/-- Outcome of each operation on one SMTP session (external collaborator):
whether starttls, login and send succeed.  Dead code in practice, because
`send_email` fails before reaching the SMTP client (see `moduleNames`). -/
structure SmtpBehavior where
  starttlsOk : Bool
  loginOk : Bool
  sendOk : Bool
deriving DecidableEq

/-- Observable actions performed on the SMTP transport. -/
inductive SmtpAction where
  | connect (server : String) (port : Nat)
  | starttls
  | login (user pw : String)
  | sendMessage (fromAddr toAddr subject body : String)
  | close
deriving DecidableEq

/-- Python-level error outcomes that escape a handler: an uncaught
`NameError`, or a raised `HTTPException(status_code, detail)`. -/
inductive PyError where
  | nameError (missing : String)
  | httpException (statusCode : Nat) (detail : String)
deriving DecidableEq

/-- Environment of external collaborators: pydantic's `EmailStr.validate`
(main.py line 94), bcrypt's `checkpw password hash` (line 136), the SMTP
configuration and behaviour, and the contents of `logs.txt` if present. -/
structure Env where
  validEmail : String → Bool
  checkpw : String → String → Bool
  smtp : SmtpBehavior
  smtpServer : String
  smtpPort : Nat
  smtpUser : String
  smtpPassword : String
  logsFile : Option String

/-- HTTP responses produced by the handlers: a rendered template (with its
status code and the error/success/logs string passed to it), a redirect,
a raised `HTTPException`, or an exception that no handler catches. -/
inductive Response where
  | render (template : String) (statusCode : Nat) (note : Option String)
  | redirect (url : String) (statusCode : Nat)
  | httpError (statusCode : Nat) (detail : String)
  | uncaught (missing : String)
deriving DecidableEq

/-- Requests of the HTTP surface of main.py that touch state or guarded
pages. -/
inductive Request where
  | register (name email : String)
  | adminLogin (username password : String)
  | adminPanel
  | broadcast (message : String)
  | viewLogs
  | logout
  | getRegistrationForm
  | getLoginForm
  | getSuccess
deriving DecidableEq

/-- One client's application state: the `admin_logged_in` flag of the
signed session cookie (absent is read as false by `session.get`) and the
Redis keyspace. -/
structure AppState where
  session : Bool
  store : Store
deriving DecidableEq

/-- Result of handling one request: next state, response, and the SMTP
actions performed while handling it. -/
structure StepResult where
  state : AppState
  response : Response
  smtp : List SmtpAction
deriving DecidableEq

/-- Names bound at module level of main.py: the imports of lines 1-15 and
the module-level assignments and function definitions.  A bare name inside
a function body resolves against this set and then Python's builtins.
`EmailMessage` is in neither, so `send_email` line 100 raises `NameError`. -/
def moduleNames : List String :=
  ["os", "re", "logging", "redis", "smtplib", "bcrypt", "time", "datetime",
   "FastAPI", "Request", "Form", "HTTPException", "Depends", "status",
   "HTMLResponse", "RedirectResponse", "StaticFiles", "Jinja2Templates",
   "EmailStr", "BaseModel", "ValidationError", "Optional", "SessionMiddleware",
   "logger", "app", "templates",
   "REDIS_URL", "REDIS_PASSWORD", "ADMIN_USERNAME", "ADMIN_PASSWORD",
   "SMTP_SERVER", "SMTP_PORT", "SMTP_USER", "SMTP_PASSWORD",
   "redis_pool", "redis_conn", "UserRegistration",
   "get_redis_with_retry", "get_redis", "validate_email", "send_email",
   "initialize_admin_account", "verify_admin", "startup_event",
   "registration_form", "register_user", "admin_login_form", "admin_login",
   "admin_panel", "broadcast_message", "view_logs", "success_page",
   "admin_logout"]

/-- Python `s.lower()`: lowercase every character. -/
def pyLower (s : String) : String := ⟨s.data.map Char.toLower⟩

/-- Python `s.strip()`: drop leading and trailing whitespace. -/
def pyStrip (s : String) : String :=
  ⟨((s.data.dropWhile Char.isWhitespace).reverse.dropWhile Char.isWhitespace).reverse⟩

/-- Python `s.replace(pat, rep)` on character lists: replace every
occurrence of `pat`, scanning left to right, non-overlapping.  Structural
recursion on a fuel argument; every step consumes at least one character,
so fuel equal to the list length is always enough. -/
def replaceList (pat rep : List Char) : Nat → List Char → List Char
  | 0, l => l
  | _, [] => []
  | fuel + 1, c :: rest =>
    if pat.isPrefixOf (c :: rest) then
      rep ++ replaceList pat rep fuel (List.drop (pat.length - 1) rest)
    else c :: replaceList pat rep fuel rest

/-- Python `s.replace(pat, rep)`. -/
def pyReplace (s pat rep : String) : String :=
  ⟨replaceList pat.data rep.data s.data.length s.data⟩

/-- Python `email.lower().strip()` (main.py lines 181 and 184): lowercase
every character, then trim leading and trailing whitespace. -/
def normalizeEmail (e : String) : String := pyStrip (pyLower e)

/-- Redis `HEXISTS hash field` on the embedded `users:emails` hash. -/
def hexists (h : List (String × Nat)) (field : String) : Bool :=
  (h.lookup field).isSome

/-- Redis `HSET hash field value`: overwrite the field if present,
otherwise append it. -/
def hsetField : List (String × Nat) → String → Nat → List (String × Nat)
  | [], field, v => [(field, v)]
  | (g, w) :: rest, field, v =>
    if g = field then (g, v) :: rest else (g, w) :: hsetField rest field v

/-- main.py lines 99-114.  `msg = EmailMessage()` resolves the bare name
`EmailMessage` against `moduleNames` and the builtins; it is absent, so a
`NameError` is raised before the SMTP session is opened.  The remaining
branches transcribe the intended path: open the session, `starttls`,
`login`, `send_message`, close via the `with` block, catching
`smtplib.SMTPException` into `HTTPException(500, ...)`. -/
def send_email (env : Env) (toAddr subject body : String) :
    Except PyError Unit × List SmtpAction :=
  if moduleNames.contains "EmailMessage" then
    let opened := [SmtpAction.connect env.smtpServer env.smtpPort, SmtpAction.starttls]
    if env.smtp.starttlsOk = false then
      (Except.error (PyError.httpException 500 "Email sending failed"),
       opened ++ [SmtpAction.close])
    else
      let logged := opened ++ [SmtpAction.login env.smtpUser env.smtpPassword]
      if env.smtp.loginOk = false then
        (Except.error (PyError.httpException 500 "Email sending failed"),
         logged ++ [SmtpAction.close])
      else
        let sent := logged ++ [SmtpAction.sendMessage env.smtpUser toAddr subject body]
        if env.smtp.sendOk = false then
          (Except.error (PyError.httpException 500 "Email sending failed"),
           sent ++ [SmtpAction.close])
        else (Except.ok (), sent ++ [SmtpAction.close])
  else (Except.error (PyError.nameError "EmailMessage"), [])

/-- main.py lines 125-136: fetch `admin:account`; empty means false; then
exact username comparison, then bcrypt check of the password against the
stored hash. -/
def verify_admin (env : Env) (acct : Option AdminAccount)
    (username password : String) : Bool :=
  match acct with
  | none => false
  | some a => if username ≠ a.username then false else env.checkpw password a.password

/-- main.py lines 157-189 (`register_user`).  Note the source checks the
duplicate with the raw submitted email (`db.hexists("users:emails", email)`,
line 171) while the index entry it writes is keyed by the normalized email
(line 184).  The fresh `user:{id}` key written by `HSET` is modelled as an
append; `users:count` is `INCR`ed first, so the id is fresh whenever all
stored ids are bounded by the counter. -/
def register_user (env : Env) (st : AppState) (name email : String) : StepResult :=
  if env.validEmail email = false then
    ⟨st, Response.render "register.html" 400 (some "Invalid email format"), []⟩
  else if hexists st.store.usersEmails email then
    ⟨st, Response.render "register.html" 400 (some "Email already registered"), []⟩
  else
    let userId := st.store.usersCount + 1
    let record : UserRecord := ⟨pyStrip name, normalizeEmail email, userId⟩
    let store2 : Store :=
      { adminAccount := st.store.adminAccount
        usersCount := userId
        usersEmails := hsetField st.store.usersEmails (normalizeEmail email) userId
        users := st.store.users ++ [record] }
    ⟨⟨st.session, store2⟩, Response.redirect "/success" 303, []⟩

/-- main.py lines 195-211: on successful verification set the session flag
and redirect to /admin; otherwise re-render the login form with status 401
and the same "Invalid credentials" message on every failing path. -/
def admin_login (env : Env) (st : AppState) (username password : String) : StepResult :=
  if verify_admin env st.store.adminAccount username password then
    ⟨⟨true, st.store⟩, Response.redirect "/admin" 303, []⟩
  else
    ⟨st, Response.render "admin_login.html" 401 (some "Invalid credentials"), []⟩

/-- main.py lines 213-218: session guard then the admin panel. -/
def admin_panel (st : AppState) : StepResult :=
  if st.session = false then ⟨st, Response.redirect "/admin/login" 303, []⟩
  else ⟨st, Response.render "admin.html" 200 none, []⟩

/-- Python `message.replace("..Student_name..", name)` (main.py line 239)
where the placeholder is Student_name in doubled curly braces: replace
every occurrence, left to right. -/
def personalize (message name : String) : String :=
  pyReplace message "\x7b\x7bStudent_name\x7d\x7d" name

/-- The send loop of `broadcast_message` (main.py lines 238-244): for each
collected user, send the personalized message; the first raised exception
aborts the remainder of the loop. -/
def runSends (env : Env) (message : String) :
    List UserRecord → Except PyError Unit × List SmtpAction
  | [] => (Except.ok (), [])
  | u :: rest =>
    match send_email env u.email "New Announcement" (personalize message u.name) with
    | (Except.ok _, acts) =>
      let r := runSends env message rest
      (r.1, acts ++ r.2)
    | (Except.error e, acts) => (Except.error e, acts)

/-- main.py lines 220-253.  Session guard, then `scan_iter("user:*")`
collects the user hashes — the only keys of this program's keyspace
matching that glob are the `user:{id}` records (`admin:account`,
`users:count` and `users:emails` do not match it) — then the send loop.
The handler's `except` clause catches only `redis.RedisError` and
`AttributeError`, so an `HTTPException` from `send_email` propagates as a
500 and a `NameError` escapes uncaught. -/
def broadcast_message (env : Env) (st : AppState) (message : String) : StepResult :=
  if st.session = false then ⟨st, Response.redirect "/admin/login" 303, []⟩
  else
    match runSends env message st.store.users with
    | (Except.ok _, acts) =>
      ⟨st, Response.render "admin.html" 200 (some "Message broadcasted successfully"), acts⟩
    | (Except.error (PyError.httpException c d), acts) => ⟨st, Response.httpError c d, acts⟩
    | (Except.error (PyError.nameError n), acts) => ⟨st, Response.uncaught n, acts⟩

/-- main.py lines 255-269: session guard; read logs.txt whole and render it
into logs.html; a missing file becomes `HTTPException(404)`. -/
def view_logs (env : Env) (st : AppState) : StepResult :=
  if st.session = false then ⟨st, Response.redirect "/admin/login" 303, []⟩
  else
    match env.logsFile with
    | some content => ⟨st, Response.render "logs.html" 200 (some content), []⟩
    | none => ⟨st, Response.httpError 404 "Logs not available", []⟩

/-- main.py lines 275-279: clear the whole session and redirect to the
login form. -/
def admin_logout (st : AppState) : StepResult :=
  ⟨⟨false, st.store⟩, Response.redirect "/admin/login" 303, []⟩

/-- One request dispatched to its handler. -/
def step (env : Env) (st : AppState) : Request → StepResult
  | Request.register name email => register_user env st name email
  | Request.adminLogin u p => admin_login env st u p
  | Request.adminPanel => admin_panel st
  | Request.broadcast m => broadcast_message env st m
  | Request.viewLogs => view_logs env st
  | Request.logout => admin_logout st
  | Request.getRegistrationForm => ⟨st, Response.render "register.html" 200 none, []⟩
  | Request.getLoginForm => ⟨st, Response.render "admin_login.html" 200 none, []⟩
  | Request.getSuccess => ⟨st, Response.render "success.html" 200 none, []⟩

/-- Final state after a request sequence. -/
def run (env : Env) (st : AppState) : List Request → AppState
  | [] => st
  | r :: rs => run env (step env st r).state rs

/-- Responses along a request sequence. -/
def runResponses (env : Env) (st : AppState) : List Request → List Response
  | [] => []
  | r :: rs => (step env st r).response :: runResponses env (step env st r).state rs

/-- Reading a user back: `HGETALL user:{i}`, i.e. the stored record whose
id field is `i`. -/
def getUser (s : Store) (i : Nat) : Option UserRecord :=
  s.users.find? (fun u => u.id == i)

/-- Every stored user id is bounded by the `users:count` counter — true of
every state the program reaches, since ids are allocated by `INCR`. -/
def idsBounded (s : Store) : Prop := ∀ u ∈ s.users, u.id ≤ s.usersCount

/-- The retry loop of `get_redis_with_retry` (main.py lines 60-71), with the
outcome of attempt `i` given by `outcome i` (true: `ping` succeeds; false:
the redis call raises a connection or authentication error).  Returns
(success, attempts made, list of sleep durations); the source sleeps
`delay = 1` second only when another attempt remains. -/
def retryLoop (outcome : Nat → Bool) : Nat → Nat → Bool × Nat × List Nat
  | _, 0 => (false, 0, [])
  | attempt, n + 1 =>
    if outcome attempt then (true, 1, [])
    else
      let r := retryLoop outcome (attempt + 1) n
      (r.1, r.2.1 + 1, (if 0 < n then [1] else []) ++ r.2.2)

/-- main.py lines 60-71 with the default arguments `max_retries=3, delay=1`. -/
def get_redis_with_retry (outcome : Nat → Bool) : Bool × Nat × List Nat :=
  retryLoop outcome 0 3

/-- main.py lines 73-90: the dependency wraps the exhausted-retries
`redis.ConnectionError` into `HTTPException(500, ...)`. -/
def get_redis (outcome : Nat → Bool) : Except PyError Unit :=
  if (get_redis_with_retry outcome).1 then Except.ok ()
  else Except.error (PyError.httpException 500
    "Database connection failed. Please check Redis credentials.")

/-- Admin-only routes: /admin, /admin/broadcast, /logs. -/
def adminOnly : Request → Bool
  | Request.adminPanel => true
  | Request.broadcast _ => true
  | Request.viewLogs => true
  | _ => false

/-- A request that sets the session flag: a login whose credentials pass
`verify_admin` against the stored account. -/
def isSuccessfulLogin (env : Env) (acct : Option AdminAccount) : Request → Bool
  | Request.adminLogin u p => verify_admin env acct u p
  | _ => false

/-- No request of the list is a successful login. -/
def noSuccessfulLogin (env : Env) (acct : Option AdminAccount)
    (rs : List Request) : Bool :=
  rs.all (fun r => !(isSuccessfulLogin env acct r))

/-- Concrete environment for the counterexample runs: the validator accepts
the three addresses used below (all valid for pydantic's `EmailStr`), and
bcrypt's check accepts exactly password "pw" against hash "hash". -/
def env1 : Env :=
  { validEmail := fun e => e == "a@b.com" || e == "A@b.com" || e == "b@c.com"
    checkpw := fun p h => p == "pw" && h == "hash"
    smtp := ⟨true, true, true⟩
    smtpServer := "smtp.example.com"
    smtpPort := 587
    smtpUser := "user@example.com"
    smtpPassword := "smtppassword"
    logsFile := some "log line" }

/-- Fresh state right after startup: admin account seeded, no users. -/
def st0 : AppState := ⟨false, ⟨some ⟨"admin", "hash"⟩, 0, [], []⟩⟩

/-- A state with an authenticated admin session and two registered users,
Ann and Bo. -/
def st3 : AppState :=
  ⟨true, ⟨some ⟨"admin", "hash"⟩, 2,
    [("a@b.com", 1), ("b@c.com", 2)],
    [⟨"Ann", "a@b.com", 1⟩, ⟨"Bo", "b@c.com", 2⟩]⟩⟩

/-! Helper lemmas shared by the claim theorems. -/

/-- `verify_admin` succeeds exactly on the stored account's exact username
and a password accepted by the hash check. -/
theorem verify_admin_iff (env : Env) (acct : Option AdminAccount) (u p : String) :
    verify_admin env acct u p = true ↔
      ∃ a, acct = some a ∧ u = a.username ∧ env.checkpw p a.password = true := by
  cases acct with
  | none => simp [verify_admin]
  | some a =>
    by_cases h : u = a.username
    · simp [verify_admin, h]
    · simp [verify_admin, h]

/-- No handler ever writes the `admin:account` key. -/
theorem adminAccount_step (env : Env) (st : AppState) (r : Request) :
    (step env st r).state.store.adminAccount = st.store.adminAccount := by
  cases r <;>
    simp only [step, register_user, admin_login, admin_panel, broadcast_message,
      view_logs, admin_logout] <;>
    (repeat' split) <;> rfl

/-- A step that is not a successful login leaves an unset session flag unset. -/
theorem session_step_false (env : Env) (st : AppState) (r : Request)
    (h : st.session = false)
    (h2 : isSuccessfulLogin env st.store.adminAccount r = false) :
    (step env st r).state.session = false := by
  cases r <;>
    simp only [step, isSuccessfulLogin, register_user, admin_login, admin_panel,
      broadcast_message, view_logs, admin_logout] at h2 ⊢ <;>
    (repeat' split) <;> simp_all

/-- Along any request sequence with no successful login, an unset session
flag stays unset. -/
theorem run_session_false (env : Env) (st : AppState) (rs : List Request)
    (h : st.session = false)
    (h2 : noSuccessfulLogin env st.store.adminAccount rs = true) :
    (run env st rs).session = false := by
  induction rs generalizing st with
  | nil => exact h
  | cons r rs ih =>
    simp only [noSuccessfulLogin, List.all_cons, Bool.and_eq_true,
      Bool.not_eq_true'] at h2
    have hstep := session_step_false env st r h h2.1
    apply ih (step env st r).state hstep
    simp only [noSuccessfulLogin, adminAccount_step]
    exact h2.2

/-- With the session flag unset, every admin-only route redirects to the
login form. -/
theorem admin_redirect_of_no_session (env : Env) (st : AppState) (r : Request)
    (h : st.session = false) (h2 : adminOnly r = true) :
    (step env st r).response = Response.redirect "/admin/login" 303 := by
  cases r <;>
    simp_all [step, adminOnly, admin_panel, broadcast_message, view_logs]

/-- Appending a record with a fresh id and looking that id up finds exactly
the appended record. -/
theorem find_append_fresh (l : List UserRecord) (n : Nat) (r : UserRecord)
    (hid : r.id = n + 1) (h : ∀ u ∈ l, u.id ≤ n) :
    (l ++ [r]).find? (fun u => u.id == n + 1) = some r := by
  induction l with
  | nil => simp [List.find?, hid]
  | cons u t ih =>
    have hu : u.id ≤ n := h u (by simp)
    have hne : (u.id == n + 1) = false := by
      simp only [beq_eq_false_iff_ne, ne_eq]
      omega
    simp only [List.cons_append, List.find?, hne]
    exact ih (fun v hv => h v (by simp [hv]))

/-- The retry loop makes at least one attempt when it has fuel. -/
theorem retryLoop_attempts_pos (outcome : Nat → Bool) (a n : Nat) (h : 0 < n) :
    1 ≤ (retryLoop outcome a n).2.1 := by
  cases n with
  | zero => omega
  | succ m =>
    simp only [retryLoop]
    split <;> simp

/-- The retry loop makes at most `n` attempts. -/
theorem retryLoop_attempts_le (outcome : Nat → Bool) (a n : Nat) :
    (retryLoop outcome a n).2.1 ≤ n := by
  induction n generalizing a with
  | zero => simp [retryLoop]
  | succ m ih =>
    simp only [retryLoop]
    split
    · simp
    · simpa using ih (a + 1)

/-- The retry loop sleeps exactly one fixed delay between consecutive
attempts: one fewer sleep than attempts, each of duration 1. -/
theorem retryLoop_sleeps (outcome : Nat → Bool) (a n : Nat) :
    (retryLoop outcome a n).2.2
      = List.replicate ((retryLoop outcome a n).2.1 - 1) 1 := by
  induction n generalizing a with
  | zero => simp [retryLoop]
  | succ m ih =>
    simp only [retryLoop]
    split
    · simp
    · rcases Nat.eq_zero_or_pos m with hm | hm
      · subst hm
        simp [retryLoop]
      · have h1 := retryLoop_attempts_pos outcome (a + 1) m hm
        have h2 := ih (a + 1)
        obtain ⟨k, hk⟩ : ∃ k, (retryLoop outcome (a + 1) m).2.1 = k + 1 :=
          ⟨(retryLoop outcome (a + 1) m).2.1 - 1, by omega⟩
        simp only [hm, if_pos, h2, hk, List.cons_append, List.nil_append,
          Nat.add_sub_cancel, List.replicate_succ]

/-! Claim theorems. -/

/-- C1: the uniqueness invariant fails on the code.  Registering Ann with
a@b.com and then Bo with A@b.com (a casing variant, both valid addresses)
produces two stored UserRecords with the same normalized email a@b.com,
because line 171 checks the index with the raw email while the index is
keyed by the normalized one; the EmailIndex ends up with a single entry
mapping a@b.com to id 2, so user 1's email no longer maps to user 1. -/
theorem registration_allows_duplicate_normalized_email :
    (run env1 st0 [Request.register "Ann" "a@b.com",
        Request.register "Bo" "A@b.com"]).store.users
        = [⟨"Ann", "a@b.com", 1⟩, ⟨"Bo", "a@b.com", 2⟩]
      ∧ (run env1 st0 [Request.register "Ann" "a@b.com",
          Request.register "Bo" "A@b.com"]).store.usersEmails
        = [("a@b.com", 2)]
      ∧ runResponses env1 st0 [Request.register "Ann" "a@b.com",
          Request.register "Bo" "A@b.com"]
        = [Response.redirect "/success" 303, Response.redirect "/success" 303] := by
  decide

/-- C2: a second registration with an already-registered email is not
rejected when the email contains an uppercase letter: submitting A@b.com
twice succeeds twice (two 303 redirects), creates a second UserRecord with
the same normalized email, and rebinds the EmailIndex entry from id 1 to
id 2 — instead of a 400 rejection with no mutation. -/
theorem duplicate_email_reregistration_not_rejected :
    runResponses env1 st0 [Request.register "Ann" "A@b.com",
        Request.register "Bo" "A@b.com"]
        = [Response.redirect "/success" 303, Response.redirect "/success" 303]
      ∧ (run env1 st0 [Request.register "Ann" "A@b.com",
          Request.register "Bo" "A@b.com"]).store.users
        = [⟨"Ann", "a@b.com", 1⟩, ⟨"Bo", "a@b.com", 2⟩]
      ∧ (run env1 st0 [Request.register "Ann" "A@b.com",
          Request.register "Bo" "A@b.com"]).store.usersEmails
        = [("a@b.com", 2)] := by
  decide

/-- C3: an authenticated broadcast over two stored users Ann and Bo with
template "Hello [Student_name placeholder]" performs no SMTP action at all
and ends in an uncaught NameError (EmailMessage is never imported in
main.py), instead of dispatching the two personalized emails; the
enumeration and substitution would otherwise be per stored user. -/
theorem broadcast_dispatches_no_email :
    step env1 st3 (Request.broadcast "Hello \x7b\x7bStudent_name\x7d\x7d")
        = ⟨st3, Response.uncaught "EmailMessage", []⟩
      ∧ st3.store.users.length = 2
      ∧ personalize "Hello \x7b\x7bStudent_name\x7d\x7d" "Ann" = "Hello Ann"
      ∧ personalize "Hello \x7b\x7bStudent_name\x7d\x7d" "Bo" = "Hello Bo" := by
  decide

/-- C4: for every input, `send_email` raises NameError at its first line
(the bare name EmailMessage resolves neither in main.py's module namespace
nor in the builtins), so no SMTP session is ever opened and no message is
ever sent — contradicting the claimed one-session-one-message contract. -/
theorem send_email_never_opens_smtp_session :
    ∀ (env : Env) (toAddr subject body : String),
      send_email env toAddr subject body
        = (Except.error (PyError.nameError "EmailMessage"), []) := by
  intro env toAddr subject body
  have h : moduleNames.contains "EmailMessage" = false := by decide
  simp only [send_email, h, Bool.false_eq_true, if_false]

/-- C5: admin login succeeds (303 redirect to /admin, session flag set)
iff the submitted username equals the stored username exactly and the
password verifies against the stored hash; every failing combination —
including a missing account and a wrong password — yields one identical
401 response. -/
theorem admin_login_iff_exact_credentials :
    ∀ (env : Env) (st : AppState) (u p : String),
      (((step env st (Request.adminLogin u p)).response
            = Response.redirect "/admin" 303) ↔
        ∃ a, st.store.adminAccount = some a ∧ u = a.username
          ∧ env.checkpw p a.password = true)
      ∧ ((step env st (Request.adminLogin u p)).response
            = Response.redirect "/admin" 303 →
          (step env st (Request.adminLogin u p)).state.session = true)
      ∧ (∀ (env2 : Env) (st2 : AppState) (u2 p2 : String),
          verify_admin env st.store.adminAccount u p = false →
          verify_admin env2 st2.store.adminAccount u2 p2 = false →
          (step env st (Request.adminLogin u p)).response
              = (step env2 st2 (Request.adminLogin u2 p2)).response
            ∧ (step env st (Request.adminLogin u p)).response
              = Response.render "admin_login.html" 401 (some "Invalid credentials")) := by
  intro env st u p
  refine ⟨?_, ?_, ?_⟩
  · rw [← verify_admin_iff]
    by_cases hv : verify_admin env st.store.adminAccount u p = true
    · simp [step, admin_login, hv]
    · have hv2 : verify_admin env st.store.adminAccount u p = false := by
        simpa using hv
      simp [step, admin_login, hv2]
  · intro hresp
    by_cases hv : verify_admin env st.store.adminAccount u p = true
    · simp [step, admin_login, hv]
    · have hv2 : verify_admin env st.store.adminAccount u p = false := by
        simpa using hv
      simp [step, admin_login, hv2] at hresp
  · intro env2 st2 u2 p2 h1 h2
    constructor <;> simp [step, admin_login, h1, h2]

/-- C5 witness: the unknown-user failure (bob) and the wrong-password
failure (admin with a wrong password) produce the same response. -/
theorem admin_login_iff_exact_credentials_witness :
    (step env1 st0 (Request.adminLogin "bob" "pw")).response
        = (step env1 st0 (Request.adminLogin "admin" "nope")).response
      ∧ (step env1 st0 (Request.adminLogin "bob" "pw")).response
        = Response.render "admin_login.html" 401 (some "Invalid credentials") :=
  (admin_login_iff_exact_credentials env1 st0 "bob" "pw").2.2 env1 st0 "admin" "nope"
    (by decide) (by decide)

/-- C6: the connection routine terminates for every outcome sequence (it
is a total function), makes between 1 and 3 attempts, sleeps the fixed
1-second delay exactly between consecutive attempts (one fewer sleep than
attempts), and when no attempt succeeds the dependency surfaces the
condition as a 500-equivalent operational error. -/
theorem redis_retry_bounded :
    ∀ outcome : Nat → Bool,
      1 ≤ (get_redis_with_retry outcome).2.1
      ∧ (get_redis_with_retry outcome).2.1 ≤ 3
      ∧ (get_redis_with_retry outcome).2.2
          = List.replicate ((get_redis_with_retry outcome).2.1 - 1) 1
      ∧ ((get_redis_with_retry outcome).1 = false →
          get_redis outcome = Except.error (PyError.httpException 500
            "Database connection failed. Please check Redis credentials.")) := by
  intro outcome
  simp only [get_redis_with_retry]
  refine ⟨retryLoop_attempts_pos outcome 0 3 (by omega),
    retryLoop_attempts_le outcome 0 3, retryLoop_sleeps outcome 0 3, ?_⟩
  intro h
  simp [get_redis, get_redis_with_retry, h]

/-- C6 witness: when every attempt fails, the routine reports the
500-equivalent error. -/
theorem redis_retry_bounded_witness :
    get_redis (fun _ => false) = Except.error (PyError.httpException 500
      "Database connection failed. Please check Redis credentials.") :=
  (redis_retry_bounded (fun _ => false)).2.2.2 (by decide)

/-- C7: after a logout request, every later admin-only request (/admin,
/admin/broadcast, /logs) is answered with a redirect to the login form, as
long as no successful login happened in between. -/
theorem logout_locks_admin_routes :
    ∀ (env : Env) (st : AppState) (pre : List Request) (r : Request),
      noSuccessfulLogin env st.store.adminAccount pre = true →
      adminOnly r = true →
      (step env (run env (step env st Request.logout).state pre) r).response
        = Response.redirect "/admin/login" 303 := by
  intro env st pre r h1 h2
  have hs : (step env st Request.logout).state.session = false := rfl
  have hrun : (run env (step env st Request.logout).state pre).session = false :=
    run_session_false env _ pre hs h1
  exact admin_redirect_of_no_session env _ r hrun h2

/-- C7 witness: logging out from an authenticated session, then visiting
the admin panel twice, still redirects to the login form. -/
theorem logout_locks_admin_routes_witness :
    (step env1 (run env1 (step env1 ⟨true, st3.store⟩ Request.logout).state
        [Request.adminPanel, Request.viewLogs]) Request.adminPanel).response
      = Response.redirect "/admin/login" 303 :=
  logout_locks_admin_routes env1 ⟨true, st3.store⟩
    [Request.adminPanel, Request.viewLogs] Request.adminPanel (by decide) (by decide)

/-- C8: a successful registration (303 redirect) writes the UserRecord
with the trimmed name, the normalized email and the freshly allocated id,
and reading that id back from the store returns exactly that record; the
id-bound invariant that makes the new key fresh is preserved. -/
theorem register_roundtrip :
    ∀ (env : Env) (st : AppState) (name email : String),
      idsBounded st.store →
      (step env st (Request.register name email)).response
        = Response.redirect "/success" 303 →
      getUser (step env st (Request.register name email)).state.store
          (st.store.usersCount + 1)
          = some ⟨pyStrip name, normalizeEmail email, st.store.usersCount + 1⟩
        ∧ idsBounded (step env st (Request.register name email)).state.store := by
  intro env st name email hinv hresp
  simp only [step, register_user] at hresp ⊢
  by_cases h1 : env.validEmail email = false
  · rw [if_pos h1] at hresp
    exact absurd hresp (by simp)
  rw [if_neg h1] at hresp ⊢
  by_cases h2 : hexists st.store.usersEmails email = true
  · rw [if_pos h2] at hresp
    exact absurd hresp (by simp)
  rw [if_neg h2] at hresp ⊢
  constructor
  · simp only [getUser]
    exact find_append_fresh st.store.users st.store.usersCount _ rfl hinv
  · intro u hu
    rcases List.mem_append.mp hu with hl | hr
    · exact Nat.le_succ_of_le (hinv u hl)
    · rcases List.mem_singleton.mp hr with rfl
      exact Nat.le_refl _

/-- C8 witness: registering Ann with a@b.com in the fresh state and reading
id 1 back yields the written record. -/
theorem register_roundtrip_witness :
    getUser (step env1 st0 (Request.register "Ann" "a@b.com")).state.store
        (st0.store.usersCount + 1)
        = some ⟨pyStrip "Ann", normalizeEmail "a@b.com", st0.store.usersCount + 1⟩
      ∧ idsBounded (step env1 st0 (Request.register "Ann" "a@b.com")).state.store :=
  register_roundtrip env1 st0 "Ann" "a@b.com" (by simp [idsBounded, st0]) (by decide)

/-- C9: the session flag is set to true only by a login request whose
credentials pass `verify_admin`; every other request leaves it unchanged
or clears it, and no request sequence without a successful login turns an
unauthenticated session into an authenticated one. -/
theorem session_flag_only_set_by_verified_login :
    (∀ (env : Env) (st : AppState) (r : Request),
      (step env st r).state.session = true →
      st.session = true ∨ ∃ u p, r = Request.adminLogin u p
        ∧ verify_admin env st.store.adminAccount u p = true)
    ∧ (∀ (env : Env) (st : AppState) (rs : List Request),
      st.session = false →
      noSuccessfulLogin env st.store.adminAccount rs = true →
      (run env st rs).session = false) := by
  constructor
  · intro env st r h
    cases r with
    | register name email =>
      left
      simp only [step, register_user] at h
      split at h
      · exact h
      · split at h
        · exact h
        · exact h
    | adminLogin u p =>
      by_cases hv : verify_admin env st.store.adminAccount u p = true
      · exact Or.inr ⟨u, p, rfl, hv⟩
      · left
        simp only [step, admin_login, if_neg hv] at h
        exact h
    | adminPanel =>
      left
      simp only [step, admin_panel] at h
      split at h <;> exact h
    | broadcast m =>
      left
      simp only [step, broadcast_message] at h
      split at h
      · exact h
      · split at h <;> exact h
    | viewLogs =>
      left
      simp only [step, view_logs] at h
      split at h
      · exact h
      · split at h <;> exact h
    | logout =>
      simp only [step, admin_logout] at h
      exact absurd h (by simp)
    | getRegistrationForm => exact Or.inl h
    | getLoginForm => exact Or.inl h
    | getSuccess => exact Or.inl h
  · intro env st rs h h2
    exact run_session_false env st rs h h2

/-- C9 witness: from an unauthenticated state, a panel visit followed by a
failed login leaves the session unauthenticated. -/
theorem session_flag_only_set_by_verified_login_witness :
    (run env1 st0 [Request.adminPanel, Request.adminLogin "admin" "bad"]).session
      = false :=
  session_flag_only_set_by_verified_login.2 env1 st0
    [Request.adminPanel, Request.adminLogin "admin" "bad"] (by decide) (by decide)

/-- C10: on an authenticated request to /logs, the handler renders the full
log text when the file exists and fails with a 404-equivalent when it does
not; the embedded handler is total, so no other error escapes. -/
theorem view_logs_full_text_or_404 :
    ∀ (env : Env) (st : AppState), st.session = true →
      (∀ content, env.logsFile = some content →
        (step env st Request.viewLogs).response
          = Response.render "logs.html" 200 (some content))
      ∧ (env.logsFile = none →
        (step env st Request.viewLogs).response
          = Response.httpError 404 "Logs not available") := by
  intro env st h
  constructor
  · intro content hc
    simp [step, view_logs, h, hc]
  · intro hn
    simp [step, view_logs, h, hn]

/-- C10 witness: with the session flag set and a log file present, /logs
renders exactly its contents. -/
theorem view_logs_full_text_or_404_witness :
    (step env1 ⟨true, st0.store⟩ Request.viewLogs).response
      = Response.render "logs.html" 200 (some "log line") :=
  (view_logs_full_text_or_404 env1 ⟨true, st0.store⟩ rfl).1 "log line" rfl

end EmailBcast
